import Mathlib

/-!
# Abastecimentos view (src/pages/Abastecimentos.jsx)

A shallow embedding of the supply-history view: the React state of the
component is a record, every event handler is a function on that record,
and the two string builders (CSV export, print document) are functions
from the loaded records to text.

Conventions of the embedding:
* a JavaScript string is a Lean `String`; a text field of an API object
  that may be absent (`undefined` or `null`) is an `Option String`;
* a numeric field of an API object is an `Option Rat` (every finite
  double is a rational); how a number or a date is printed depends on the
  browser locale and is taken from a `Host`;
* `x || d` on a text field is `jsOr x d`, `x || undefined` on a state
  string is `orUndefined x`.
-/

namespace Abastecimentos

/-! ## JavaScript string helpers -/

/-- JavaScript `x || d` for a text value `x` that may be absent: the
empty string and the absent value are both falsy. -/
def jsOr (x : Option String) (d : String) : String :=
  match x with
  | some s => if s = "" then d else s
  | none => d

/-- JavaScript `x || undefined` for a string state variable. -/
def orUndefined (x : String) : Option String :=
  if x = "" then none else some x

/-- Truthiness of a text value that may be absent. -/
def truthy (x : Option String) : Bool :=
  match x with
  | some s => !(s == "")
  | none => false

/-- JavaScript `s.replaceAll(c, r)` for a one-character pattern `c`. -/
def replaceAll (c : Char) (r : String) (s : String) : String :=
  String.mk (s.data.flatMap (fun x => if x = c then r.data else [x]))

/-- White space and line terminators removed by `String.prototype.trim`. -/
def isTrimChar (c : Char) : Bool :=
  let n := c.toNat
  n = 0x09 || n = 0x0A || n = 0x0B || n = 0x0C || n = 0x0D || n = 0x20 ||
  n = 0xA0 || n = 0x1680 || (0x2000 ≤ n && n ≤ 0x200A) || n = 0x2028 ||
  n = 0x2029 || n = 0x202F || n = 0x205F || n = 0x3000 || n = 0xFEFF

/-- JavaScript `s.trim()`. -/
def jsTrim (s : String) : String :=
  String.mk ((s.data.dropWhile isTrimChar).reverse.dropWhile isTrimChar).reverse

/-! ## Data model -/

/-- A product suggestion returned by `api.getProdutos`. -/
structure Produto where
  id : Option String
  nome : Option String
  codigo : Option String
deriving DecidableEq, Repr

/-- One record of the supply history returned by
`api.getAbastecimentosHistorico`. -/
structure Registro where
  id : Option String
  created_at : Option String
  produto_nome : Option String
  codigo : Option String
  quantidade : Option Rat
  custo_unitario : Option Rat
  total_custo : Option Rat
  usuario_nome : Option String
  observacao : Option String
deriving DecidableEq, Repr

/-- Locale-dependent printing supplied by the browser. -/
structure Host where
  /-- The text of `new Date(x).toLocaleString()`. -/
  dateToLocaleString : String → String
  /-- The text of `String(x)` for a number. -/
  numberToString : Rat → String
  /-- The text of `Number(x).toLocaleString()`. -/
  numberToLocaleString : Rat → String
  /-- The text of `Number(x).toLocaleString(undefined, { minimumFractionDigits: 2 })`. -/
  currencyToLocaleString : Rat → String

/-- The `useState` variables of the component. -/
structure State where
  loading : Bool
  error : String
  items : List Registro
  pagina : Int
  limite : Int
  hasNext : Bool
  selectedItem : Option Registro
  showFilters : Bool
  isMobile : Bool
  dataInicial : String
  dataFinal : String
  produtoId : String
  produtoQuery : String
  produtoSugestoes : List Produto
  showSugestoes : Bool
  usuarioId : String
  ordenacao : String
deriving DecidableEq, Repr

/-- The state of a freshly mounted component (lines 23-40), for a window
of the given width class. -/
def State.initial (mobile : Bool) : State :=
  { loading := false, error := "", items := [], pagina := 1, limite := 20,
    hasNext := false, selectedItem := none, showFilters := false,
    isMobile := mobile, dataInicial := "", dataFinal := "", produtoId := "",
    produtoQuery := "", produtoSugestoes := [], showSugestoes := false,
    usuarioId := "", ordenacao := "created_at_desc" }

/-! ## CSV export (lines 113-131) -/

/-- The header line cells of the CSV. -/
def csvHeaders : List String :=
  ["Data", "Produto", "Código", "Quantidade", "Custo Unitário", "Total Custo",
   "Usuário", "Observação"]

/-- The text `String(x ?? '')` for a numeric field. -/
def numCell (h : Host) (x : Option Rat) : String :=
  match x with
  | some q => h.numberToString q
  | none => ""

/-- The date cell: `r.created_at ? new Date(r.created_at).toLocaleString() : ''`. -/
def dateCell (h : Host) (x : Option String) : String :=
  match x with
  | some s => if s = "" then "" else h.dateToLocaleString s
  | none => ""

/-- The note entry of a row before cell escaping (line 125):
`(r.observacao || '').replaceAll('\n', ' ').replaceAll('"', '""')`. -/
def csvNote (obs : Option String) : String :=
  replaceAll '\"' "\"\"" (replaceAll '\n' " " (jsOr obs ""))

/-- The array built for one record by `items.map` (lines 117-126). -/
def csvRow (h : Host) (r : Registro) : List String :=
  [ dateCell h r.created_at,
    jsOr r.produto_nome "",
    jsOr r.codigo "",
    numCell h r.quantidade,
    numCell h r.custo_unitario,
    numCell h r.total_custo,
    jsOr r.usuario_nome "",
    csvNote r.observacao ]

/-- The regular expression test on a cell: whether it holds a quote, a comma or a newline. -/
def needsQuote (cell : String) : Bool :=
  cell.data.any (fun c => c = '\"' || c = ',' || c = '\n')

/-- The cell writer of lines 127-131. -/
def csvCell (cell : String) : String :=
  let val := replaceAll '\"' "\"\"" cell
  if needsQuote cell then "\"" ++ val ++ "\"" else val

/-- The text line written for one record. -/
def csvLine (h : Host) (r : Registro) : String :=
  ",".intercalate ((csvRow h r).map csvCell)

/-- The text handed to the `Blob` by `exportCSV`. -/
def exportCSV (h : Host) (items : List Registro) : String :=
  "\n".intercalate (",".intercalate csvHeaders :: items.map (csvLine h))

/-- The note cell of the line written for a record. -/
def csvNoteCell (r : Registro) : String :=
  csvCell (csvNote r.observacao)

/-! ## A reader of comma-separated text

The reader against which the text of `exportCSV` is checked: fields are
separated by commas and records by newlines; a field may be wrapped in
double quotes, inside which a doubled quote stands for one quote and
commas and newlines are ordinary characters. -/

/-- Where the reader stands: in a field outside quotes, inside a quoted
field, or just after a quote met inside a quoted field. -/
inductive CsvModo where
  | campo
  | aspas
  | aspasFim
deriving DecidableEq, Repr

/-- The reader: its mode, the characters of the field being read, the
fields already read of the record being read, and the records read. -/
structure CsvLeitor where
  modo : CsvModo
  atual : List Char
  campos : List String
  registros : List (List String)
deriving DecidableEq, Repr

/-- The reader before the first character. -/
def CsvLeitor.inicial : CsvLeitor :=
  { modo := .campo, atual := [], campos := [], registros := [] }

/-- The field being read ends. -/
def CsvLeitor.fimCampo (st : CsvLeitor) : CsvLeitor :=
  { st with modo := .campo, atual := [], campos := st.campos ++ [String.mk st.atual] }

/-- The record being read ends with the field being read. -/
def CsvLeitor.fimRegistro (st : CsvLeitor) : CsvLeitor :=
  { modo := .campo, atual := [], campos := [],
    registros := st.registros ++ [st.campos ++ [String.mk st.atual]] }

/-- The reader takes one character. -/
def CsvLeitor.ler (st : CsvLeitor) (c : Char) : CsvLeitor :=
  match st.modo with
  | .campo =>
      if c = '\"' then { st with modo := .aspas }
      else if c = ',' then st.fimCampo
      else if c = '\n' then st.fimRegistro
      else { st with atual := st.atual ++ [c] }
  | .aspas =>
      if c = '\"' then { st with modo := .aspasFim }
      else { st with atual := st.atual ++ [c] }
  | .aspasFim =>
      if c = '\"' then { st with modo := .aspas, atual := st.atual ++ ['\"'] }
      else if c = ',' then st.fimCampo
      else if c = '\n' then st.fimRegistro
      else { st with modo := .campo, atual := st.atual ++ [c] }

/-- The reader takes a run of characters. -/
def CsvLeitor.correr (st : CsvLeitor) (cs : List Char) : CsvLeitor :=
  cs.foldl CsvLeitor.ler st

/-- The records of a comma-separated text; the last record ends with the
text. -/
def csvDecode (s : String) : List (List String) :=
  ((CsvLeitor.inicial.correr s.data).fimRegistro).registros

/-! ## Print export (lines 143-195) -/

/-- The number `Number(x || 0)` for a numeric field. -/
def numOrZero (x : Option Rat) : Rat :=
  match x with
  | some q => if q = 0 then 0 else q
  | none => 0

/-- The inline style sheet of the print document (lines 147-156). -/
def pdfStyle : String :=
  "\n      <style>\n        body \x7b font-family: system-ui, -apple-system, Segoe UI, Roboto, Helvetica, Arial, sans-serif; padding: 16px; \x7d\n        h1 \x7b font-size: 18px; margin: 0 0 12px; \x7d\n        table \x7b width: 100%; border-collapse: collapse; font-size: 12px; \x7d\n        th, td \x7b border: 1px solid #ddd; padding: 6px 8px; text-align: left; \x7d\n        th \x7b background: #f5f5f5; \x7d\n        td.num \x7b text-align: right; \x7d\n      </style>\n    "

/-- The heading of the print document (line 157). -/
def pdfHeader : String := "<h1>Histórico de Abastecimentos</h1>"

/-- The table head of the print document (lines 158-171). -/
def pdfTableHead : String :=
  "\n      <thead>\n        <tr>\n          <th>Data</th>\n          <th>Produto</th>\n          <th>Código</th>\n          <th>Quantidade</th>\n          <th>Custo Unit.</th>\n          <th>Total Custo</th>\n          <th>Usuário</th>\n          <th>Obs.</th>\n        </tr>\n      </thead>\n    "

/-- The note text of a print row (line 183):
`(r.observacao || '').replaceAll('<','&lt;').replaceAll('>','&gt;')`. -/
def pdfNote (obs : Option String) : String :=
  replaceAll '>' "&gt;" (replaceAll '<' "&lt;" (jsOr obs ""))

/-- One table row of the print document (lines 174-185). -/
def pdfRow (h : Host) (r : Registro) : String :=
  "\n          <tr>\n            <td>" ++ dateCell h r.created_at ++
  "</td>\n            <td>" ++ jsOr r.produto_nome "" ++
  "</td>\n            <td>" ++ jsOr r.codigo "" ++
  "</td>\n            <td class=\"num\">" ++ h.numberToLocaleString (numOrZero r.quantidade) ++
  "</td>\n            <td class=\"num\">" ++ h.currencyToLocaleString (numOrZero r.custo_unitario) ++
  "</td>\n            <td class=\"num\">" ++ h.currencyToLocaleString (numOrZero r.total_custo) ++
  "</td>\n            <td>" ++ jsOr r.usuario_nome "" ++
  "</td>\n            <td>" ++ pdfNote r.observacao ++
  "</td>\n          </tr>\n        "

/-- The rows of the table body: `items.map(r => ...)`. -/
def pdfRows (h : Host) (items : List Registro) : List String :=
  items.map (pdfRow h)

/-- The table body (lines 172-187); the rows are joined with the empty
separator. -/
def pdfTableBody (h : Host) (items : List Registro) : String :=
  "\n      <tbody>\n        " ++ String.join (pdfRows h items) ++ "\n      </tbody>\n    "

/-- The document written to the new window (line 188). -/
def pdfHtml (h : Host) (items : List Registro) : String :=
  "<!doctype html><html><head><meta charset=\"utf-8\">" ++ pdfStyle ++
  "</head><body>" ++ pdfHeader ++ "<table>" ++ pdfTableHead ++
  pdfTableBody h items ++ "</table></body></html>"

/-- What a caller hands to `exportPDF`: the toolbar button passes its
click event, the modal button passes `[selectedItem]`. -/
inductive PdfArg where
  | clickEvent
  | registros (rs : List (Option Registro))
deriving DecidableEq, Repr

/-- The function `exportPDF` (lines 143-195). It is declared without a
formal parameter, so the argument of a call is dropped and the rows come
from the `items` state of the render. `janela` tells whether
`window.open` gave a window; without one nothing is written. -/
def exportPDF (h : Host) (s : State) (_arg : PdfArg) (janela : Bool) : Option String :=
  if janela then some (pdfHtml h s.items) else none

/-- The rows of the document `exportPDF` writes. -/
def exportPDFRows (h : Host) (s : State) (_arg : PdfArg) : List String :=
  pdfRows h s.items

/-- The toolbar button `Imprimir` (line 242): `onClick={exportPDF}`. -/
def imprimirPagina (h : Host) (s : State) (janela : Bool) : Option String :=
  exportPDF h s PdfArg.clickEvent janela

/-- The modal button `Imprimir` (lines 606-609):
`exportPDF([selectedItem]); setSelectedItem(null)`. -/
def imprimirSelecionado (h : Host) (s : State) (janela : Bool) : Option String × State :=
  (exportPDF h s (PdfArg.registros [s.selectedItem]) janela, { s with selectedItem := none })

/-! ## Query parameters and the history fetch (lines 51-75) -/

/-- The object handed to `api.getAbastecimentosHistorico`; an optional
field that is `undefined` is `none`. -/
structure Params where
  data_inicial : Option String
  data_final : Option String
  usuario_id : Option String
  produto_id : Option String
  pagina : Int
  limite : Int
  ordenacao : String
deriving DecidableEq, Repr

/-- The `params` memo (lines 51-59). -/
def params (s : State) : Params :=
  { data_inicial := orUndefined s.dataInicial,
    data_final := orUndefined s.dataFinal,
    usuario_id := orUndefined s.usuarioId,
    produto_id := orUndefined s.produtoId,
    pagina := s.pagina,
    limite := s.limite,
    ordenacao := s.ordenacao }

/-- The dependency array of the `params` memo (line 59). -/
def paramsDeps (s : State) : String × String × String × String × Int × Int × String :=
  (s.dataInicial, s.dataFinal, s.usuarioId, s.produtoId, s.pagina, s.limite, s.ordenacao)

/-- A JavaScript value as far as its truthiness goes. -/
inductive JsVal where
  | undefined
  | null
  | bool (b : Bool)
  | num (q : Rat)
  | str (s : String)
deriving DecidableEq, Repr

/-- The value of `!!v`. -/
def JsVal.truthy : JsVal → Bool
  | .undefined => false
  | .null => false
  | .bool b => b
  | .num q => !(q == 0)
  | .str s => !(s == "")

/-- The object a history call resolves to. -/
structure Resposta where
  items : Option (List Registro)
  has_next : JsVal
deriving DecidableEq, Repr

/-- A thrown value as far as `load` reads it: its `message`. -/
structure Erro where
  message : Option String
deriving DecidableEq, Repr

/-- How the awaited history call ends: it resolves to a value (possibly
`undefined` or `null`) or it throws a value (possibly `undefined`). -/
inductive Outcome where
  | resolved (res : Option Resposta)
  | rejected (e : Option Erro)
deriving DecidableEq, Repr

/-- The part of `load` before the `await` (lines 62-63). -/
def loadBegin (s : State) : State :=
  { s with loading := true, error := "" }

/-- The stored items, `res?.items || []`. -/
def respostaItems (res : Option Resposta) : List Registro :=
  match res with
  | some r => r.items.getD []
  | none => []

/-- The stored flag, `!!res?.has_next`. -/
def respostaHasNext (res : Option Resposta) : Bool :=
  match res with
  | some r => r.has_next.truthy
  | none => false

/-- The stored message, `e?.message || 'Erro ao carregar'`. -/
def erroMensagem (e : Option Erro) : String :=
  match e with
  | some x => jsOr x.message "Erro ao carregar"
  | none => "Erro ao carregar"

/-- The part of `load` after the `await` (lines 66-72), the `finally`
block included. -/
def loadSettle (s : State) (o : Outcome) : State :=
  match o with
  | .resolved res =>
      { s with items := respostaItems res, hasNext := respostaHasNext res, loading := false }
  | .rejected e =>
      { s with error := erroMensagem e, loading := false }

/-- One step of the history fetch as the state sees it. A run of `load`
(lines 61-73) is two steps with its `await` (line 65) between them:
`start`, the lines 62-63, and `settle`, the lines 66-72 with the outcome
of the awaited call. Runs may overlap: nothing in `load` ties a settle to
the latest start, and other steps may come between the two of a run. -/
inductive LoadStep where
  | start
  | settle (o : Outcome)
deriving DecidableEq, Repr

/-- The state after one step of the history fetch. -/
def loadStep (s : State) : LoadStep → State
  | .start => loadBegin s
  | .settle o => loadSettle s o

/-- The state after a sequence of steps of one or more runs of `load`. -/
def loadSteps (s : State) (steps : List LoadStep) : State :=
  steps.foldl loadStep s

/-- The effect `useEffect(() => { load() }, [params])` (line 75) after a
commit from `prev` to `next`: a call with the new parameters when a
dependency of the memo changed. -/
def loadEffect (prev next : State) : Option Params :=
  if paramsDeps prev = paramsDeps next then none else some (params next)

/-! ## Event handlers -/

/-- Handler of the start-date input (line 260): `setDataInicial(e.target.value)`. -/
def onDataInicialChange (v : String) (s : State) : State :=
  { s with dataInicial := v }

/-- Handler of the end-date input (line 269): `setDataFinal(e.target.value)`. -/
def onDataFinalChange (v : String) (s : State) : State :=
  { s with dataFinal := v }

/-- Handler of the sort select (line 319): `setOrdenacao(e.target.value)`. -/
def onOrdenacaoChange (v : String) (s : State) : State :=
  { s with ordenacao := v }

/-- Handler of the product text input (lines 281-284). -/
def onProdutoQueryChange (v : String) (s : State) : State :=
  { s with produtoQuery := v, showSugestoes := true }

/-- The text put in the product field for a suggestion (line 103); the
suggestion itself may be absent (`p?.nome`). -/
def produtoTexto (p : Option Produto) : String :=
  match p with
  | some x =>
      if truthy x.nome then
        jsOr x.nome "" ++ (if truthy x.codigo then " (" ++ jsOr x.codigo "" ++ ")" else "")
      else ""
  | none => ""

/-- The function `handleProdutoSelect` (lines 101-105). -/
def handleProdutoSelect (p : Option Produto) (s : State) : State :=
  { s with
    produtoId := jsOr (p.bind (fun x => x.id)) "",
    produtoQuery := produtoTexto p,
    showSugestoes := false }

/-- The function `clearProduto` (lines 107-111). -/
def clearProduto (s : State) : State :=
  { s with produtoId := "", produtoQuery := "", produtoSugestoes := [] }

/-- The button `Limpar` of the filter form (lines 331-338). -/
def limparFiltros (s : State) : State :=
  { s with dataInicial := "", dataFinal := "", produtoId := "", produtoQuery := "",
           usuarioId := "", pagina := 1 }

/-- Handler of the page-size select (line 363). -/
def onLimiteChange (n : Int) (s : State) : State :=
  { s with limite := n, pagina := 1 }

/-- The button `Anterior` (line 503): `setPagina(p => Math.max(1, p - 1))`. -/
def paginaAnterior (s : State) : State :=
  { s with pagina := max 1 (s.pagina - 1) }

/-- The button `Próxima` (line 513): `setPagina(p => (hasNext ? p + 1 : p))`. -/
def paginaProxima (s : State) : State :=
  { s with pagina := if s.hasNext then s.pagina + 1 else s.pagina }

/-- The function `handleSubmit` (lines 197-201) run in the render of `s`.
`setPagina(1)` queues a state update for the next render; `load()` is the
closure of the current render, so the call it makes carries the `params`
memo of `s`. The result is the committed state and that call. -/
def handleSubmit (s : State) : State × Params :=
  ({ loadBegin s with pagina := 1 }, params s)

/-- Every history call that follows a submit, in issue order: the call
of `handleSubmit` itself, then the call of the `load` effect when the
commit changed a dependency of `params`. -/
def submitFetches (s : State) : List Params :=
  (handleSubmit s).2 :: (loadEffect s (handleSubmit s).1).toList

/-- A change of one filter field through the handler the view attaches to
that field. The user id has no input of its own. -/
inductive FilterChange where
  | dataInicial (v : String)
  | dataFinal (v : String)
  | produtoSelect (p : Option Produto)
  | produtoClear
  | ordenacao (v : String)
deriving DecidableEq, Repr

/-- The handler run for a filter change. -/
def applyFilterChange (c : FilterChange) (s : State) : State :=
  match c with
  | .dataInicial v => onDataInicialChange v s
  | .dataFinal v => onDataFinalChange v s
  | .produtoSelect p => handleProdutoSelect p s
  | .produtoClear => clearProduto s
  | .ordenacao v => onOrdenacaoChange v s

/-! ## Product autocomplete (lines 77-99) -/

/-- The body of the autocomplete effect up to the `setTimeout` (lines
79-85): with a blank query the suggestions are emptied and no timer is
set, otherwise a timer is set for the trimmed query, which is returned. -/
def autocompleteEffect (s : State) : State × Option String :=
  let q := jsTrim s.produtoQuery
  if q = "" then ({ s with produtoSugestoes := [] }, none) else (s, some q)

/-- A commit from `prev` to `next` followed by the autocomplete effect,
which runs when `produtoQuery` changed (dependency array, line 99). The
result is the state after the body of the effect and the search term of
the timer this commit set, if it set one; the callback of that timer
calls `api.getProdutos` 300 ms later and its result is stored by
`autocompleteSettle`. -/
def commitAutocomplete (prev next : State) : State × Option String :=
  if prev.produtoQuery = next.produtoQuery then (next, none) else autocompleteEffect next

/-- The state after `handleProdutoSelect(p)` and the body of the effect it
triggers, with the search term of the timer that effect set. -/
def selectAndEffect (p : Option Produto) (s : State) : State × Option String :=
  commitAutocomplete s (handleProdutoSelect p s)

/-- What `api.getProdutos(q)` resolves to, as far as `Array.isArray`
tells: an array of suggestions or a value that is not an array. -/
inductive ProdutosResult where
  | lista (ps : List Produto)
  | outro (v : JsVal)
deriving DecidableEq, Repr

/-- How the awaited product search ends: it resolves or it throws. -/
inductive ProdutosOutcome where
  | resolved (r : ProdutosResult)
  | rejected
deriving DecidableEq, Repr

/-- The timer callback after its `await` (lines 88-93). `active` is the
liveness flag of the effect run that set the timer; the cleanup of that
run sets it to false, and the callback then returns without storing. -/
def autocompleteSettle (s : State) (active : Bool) (o : ProdutosOutcome) : State :=
  match o with
  | .resolved r =>
      if !active then s
      else
        { s with produtoSugestoes :=
            match r with
            | .lista ps => ps.take 10
            | .outro _ => [] }
  | .rejected =>
      if !active then s else { s with produtoSugestoes := [] }

/-- Whether the suggestion list is rendered (line 298):
`showSugestoes && produtoSugestoes.length > 0`. -/
def sugestoesVisiveis (s : State) : Bool :=
  s.showSugestoes && decide (s.produtoSugestoes.length > 0)

/-- The delay of the debounce timer in milliseconds (line 94). -/
def debounceMs : Nat := 300

/-- A call of `api.getProdutos`: the instant it is issued and its argument. -/
structure Busca where
  instante : Nat
  q : String
deriving DecidableEq, Repr

/-- The autocomplete machinery over time: the committed `produtoQuery`,
the pending timer (its due instant and search term) and the calls
issued so far, oldest first. -/
structure Debounce where
  query : String
  pendente : Option Busca
  chamadas : List Busca
deriving DecidableEq, Repr

/-- The machinery after mount: empty query, so the first effect run sets
no timer. -/
def Debounce.inicial : Debounce :=
  { query := "", pendente := none, chamadas := [] }

/-- Time passes up to `agora`: a pending timer that is due runs its
callback, which calls `api.getProdutos(q)` (line 87). -/
def Debounce.avancar (d : Debounce) (agora : Nat) : Debounce :=
  match d.pendente with
  | some b =>
      if b.instante ≤ agora then
        { d with pendente := none, chamadas := d.chamadas ++ [b] }
      else d
  | none => d

/-- An edit of the product field at instant `t` setting the text `texto`.
Timers due by `t` have run. When the text differs from the committed
query the effect is re-run: its cleanup clears the pending timer (lines
95-98) and its body sets a new one for the trimmed text unless that is
empty (lines 80-94). -/
def Debounce.editar (d : Debounce) (t : Nat) (texto : String) : Debounce :=
  let d1 := d.avancar t
  if texto = d1.query then d1
  else
    let q := jsTrim texto
    { query := texto,
      pendente := if q = "" then none else some { instante := t + debounceMs, q := q },
      chamadas := d1.chamadas }

/-- All edits of a list handled in order. -/
def Debounce.editarTodos (d : Debounce) (edits : List (Nat × String)) : Debounce :=
  edits.foldl (fun a e => a.editar e.1 e.2) d

/-- The calls issued once no more edits come: a pending timer runs. -/
def Debounce.escoar (d : Debounce) : List Busca :=
  match d.pendente with
  | some b => d.chamadas ++ [b]
  | none => d.chamadas

/-- The search calls issued by the view for a list of timed edits made
after mount. -/
def buscasEmitidas (edits : List (Nat × String)) : List Busca :=
  (Debounce.inicial.editarTodos edits).escoar

/-- The calls the debounce rule of the specification asks for: one for
each edit whose text is not white space only (its trimmed text is not
empty) and that no later edit follows within 300 ms, with the trimmed
text, issued 300 ms after the edit. -/
def buscasEsperadas : List (Nat × String) → List Busca
  | [] => []
  | (t, x) :: rest =>
      (if x.data.all isTrimChar = false ∧ rest.all (fun e => decide (t + 300 ≤ e.1)) then
        [{ instante := t + 300, q := jsTrim x }] else []) ++ buscasEsperadas rest

/-- Each edit changes the text of the field: the first differs from
`q0`, every later one from its predecessor. -/
def textosMudam (q0 : String) : List (Nat × String) → Prop
  | [] => True
  | (_, x) :: rest => x ≠ q0 ∧ textosMudam x rest

/-- The instants of the edits do not decrease, starting at `t0`. -/
def temposCrescem (t0 : Nat) : List (Nat × String) → Prop
  | [] => True
  | (t, _) :: rest => t0 ≤ t ∧ temposCrescem t rest

/-- The text `q` is the text `x` without its leading and trailing white
space, said without `jsTrim`: `x` is `q` between two runs of white space
and `q` neither starts nor ends with white space. -/
def Aparado (x q : String) : Prop :=
  ∃ pre post : List Char,
    x.data = pre ++ q.data ++ post ∧
    (∀ c ∈ pre, isTrimChar c = true) ∧ (∀ c ∈ post, isTrimChar c = true) ∧
    (∀ c, q.data.head? = some c → isTrimChar c = false) ∧
    (∀ c, q.data.getLast? = some c → isTrimChar c = false)

/-! ## Sample inputs -/

/-- A record that carries only a note. -/
def registroComNota (nota : String) : Registro :=
  { id := none, created_at := none, produto_nome := none, codigo := none,
    quantidade := none, custo_unitario := none, total_custo := none,
    usuario_nome := none, observacao := some nota }

/-- A record with a product name, for the examples. -/
def registroA : Registro :=
  { id := some "1", created_at := none, produto_nome := some "Arroz", codigo := some "A1",
    quantidade := none, custo_unitario := none, total_custo := none,
    usuario_nome := some "Ana", observacao := none }

/-- A second record, for the examples. -/
def registroB : Registro :=
  { id := some "2", created_at := none, produto_nome := some "Feijao", codigo := none,
    quantidade := none, custo_unitario := none, total_custo := none,
    usuario_nome := none, observacao := some "lote <2>" }

/-- A view showing two loaded records with the detail modal open on the
first of them. -/
def estadoModal : State :=
  { State.initial false with items := [registroA, registroB], selectedItem := some registroA }

/-- A view on page 3 with no filter set. -/
def estadoPagina3 : State :=
  { State.initial false with pagina := 3, hasNext := true }

/-- A product suggestion with id, name and code. -/
def produtoCoca : Produto :=
  { id := some "7", nome := some "Coca", codigo := some "789" }

/-- A view whose product field reads `co` with one stored suggestion shown. -/
def estadoSugestoes : State :=
  { State.initial false with produtoQuery := "co", produtoSugestoes := [produtoCoca],
                             showSugestoes := true }

/-- A record whose product name, code and user name carry markup. -/
def registroMarcado : Registro :=
  { id := some "3", created_at := none, produto_nome := some "<b>Arroz</b>",
    codigo := some "<i>", quantidade := none, custo_unitario := none, total_custo := none,
    usuario_nome := some "a>b", observacao := some "<b>x</b>" }

/-- A response of the history call with one record and no next page. -/
def respostaA : Resposta :=
  { items := some [registroA], has_next := JsVal.bool false }

/-- A thrown error with the message `boom`. -/
def erroBoom : Erro :=
  { message := some "boom" }

/-- A suggestion whose name is white space only. -/
def produtoBranco : Produto :=
  { id := some "8", nome := some "  ", codigo := none }

/-- A suggestion whose name has white space around it. -/
def produtoEspacos : Produto :=
  { id := some "9", nome := some " Coca\t", codigo := none }

/-! ## Theorems -/

/-- The characters of a trimmed text. -/
theorem jsTrim_data (x : String) :
    (jsTrim x).data = ((x.data.dropWhile isTrimChar).reverse.dropWhile isTrimChar).reverse := rfl

/-- A text trims to the empty text exactly when it is white space only. -/
theorem jsTrim_eq_empty_iff (x : String) :
    jsTrim x = "" ↔ x.data.all isTrimChar = true := by
  have hmk : jsTrim x = "" ↔ (jsTrim x).data = [] := by
    constructor
    · intro h; rw [h]
    · intro h; exact String.ext h
  rw [hmk, jsTrim_data, List.reverse_eq_nil_iff, List.dropWhile_eq_nil_iff, List.all_eq_true]
  constructor
  · intro h
    have hnil : x.data.dropWhile isTrimChar = [] := by
      by_contra hne
      have hhead := List.head_dropWhile_not isTrimChar x.data hne
      have hmem : (x.data.dropWhile isTrimChar).head hne ∈ (x.data.dropWhile isTrimChar).reverse :=
        List.mem_reverse.mpr (List.head_mem hne)
      rw [h _ hmem] at hhead
      exact absurd hhead (by decide)
    exact List.dropWhile_eq_nil_iff.mp hnil
  · intro h c hc
    have hnil : x.data.dropWhile isTrimChar = [] := List.dropWhile_eq_nil_iff.mpr h
    rw [hnil] at hc
    cases hc

/-- The trimmed text is the text without its leading and trailing white
space. -/
theorem jsTrim_aparado (x : String) : Aparado x (jsTrim x) := by
  refine ⟨x.data.takeWhile isTrimChar,
    ((x.data.dropWhile isTrimChar).reverse.takeWhile isTrimChar).reverse, ?_, ?_, ?_, ?_, ?_⟩
  · rw [jsTrim_data, List.append_assoc, ← List.reverse_append,
      List.takeWhile_append_dropWhile, List.reverse_reverse, List.takeWhile_append_dropWhile]
  · intro c hc
    exact List.mem_takeWhile_imp hc
  · intro c hc
    exact List.mem_takeWhile_imp (List.mem_reverse.mp hc)
  · intro c hc
    rw [jsTrim_data] at hc
    -- the trimmed text starts where the text without leading white space starts
    have hsplit : x.data.dropWhile isTrimChar =
        ((x.data.dropWhile isTrimChar).reverse.dropWhile isTrimChar).reverse ++
        ((x.data.dropWhile isTrimChar).reverse.takeWhile isTrimChar).reverse := by
      rw [← List.reverse_append, List.takeWhile_append_dropWhile, List.reverse_reverse]
    have hhead : (x.data.dropWhile isTrimChar).head? = some c := by
      rw [hsplit, List.head?_append, hc]
      rfl
    have := List.head?_dropWhile_not isTrimChar x.data
    rw [hhead] at this
    simpa using this
  · intro c hc
    rw [jsTrim_data, List.getLast?_reverse] at hc
    have := List.head?_dropWhile_not isTrimChar (x.data.dropWhile isTrimChar).reverse
    rw [hc] at this
    simpa using this

/-- C1 (fails on the code): for the note `say "hi"\nagain` the cell
written by `exportCSV` has every quote of the note doubled twice, once at
line 125 and again by the cell writer at line 129, so it is not the cell
`"say ""hi"" again"` of the specification. -/
theorem C1_note_cell_quotes_doubled_twice :
    csvNoteCell (registroComNota "say \"hi\"\nagain") = "\"say \"\"\"\"hi\"\"\"\" again\"" ∧
    csvNoteCell (registroComNota "say \"hi\"\nagain") ≠ "\"say \"\"hi\"\" again\"" ∧
    (∀ h : Host, exportCSV h [registroComNota "say \"hi\"\nagain"] =
      "Data,Produto,Código,Quantidade,Custo Unitário,Total Custo,Usuário,Observação\n" ++
      ",,,,,,,\"say \"\"\"\"hi\"\"\"\" again\"") := by
  refine ⟨by decide, by decide, fun h => ?_⟩
  rfl

/-- C2 (fails on the code): with two loaded records and the modal open on
the first, the print button of the modal writes a table body with two
rows, one per loaded record, the same document as the toolbar button. -/
theorem C2_modal_print_writes_every_loaded_row (h : Host) :
    exportPDFRows h estadoModal (PdfArg.registros [estadoModal.selectedItem]) =
      [pdfRow h registroA, pdfRow h registroB] ∧
    (exportPDFRows h estadoModal (PdfArg.registros [estadoModal.selectedItem])).length = 2 ∧
    (imprimirSelecionado h estadoModal true).1 = some (pdfHtml h [registroA, registroB]) ∧
    (imprimirSelecionado h estadoModal true).1 = imprimirPagina h estadoModal true := by
  refine ⟨rfl, rfl, rfl, rfl⟩

/-- C3 (fails on the code): on page 3 the history call made by
`handleSubmit` carries page 3, the page of the render in which the form
was submitted; the call with page 1 is a second one, made by the `load`
effect after the commit. -/
theorem C3_submit_fetch_carries_prior_page :
    (handleSubmit estadoPagina3).2.pagina = 3 ∧
    (handleSubmit estadoPagina3).1.pagina = 1 ∧
    (submitFetches estadoPagina3).map (fun q => q.pagina) = [3, 1] := by
  decide

/-- The handler of a filter field never writes the page number. -/
theorem applyFilterChange_pagina (s : State) (c : FilterChange) :
    (applyFilterChange c s).pagina = s.pagina := by
  cases c <;> rfl

/-- C4 (fails on the code): on page 3 a new start date leaves the view on
page 3, and the `load` effect at once asks for page 3 of the newly
filtered history; the same holds for the end date, the sort order and the
product selection and clearing. The other controls that change the query
(the page-size select, the button `Limpar` of the form, the submit) do set
the page to 1. -/
theorem C4_filter_change_keeps_stale_page :
    (applyFilterChange (FilterChange.dataInicial "2024-01-01") estadoPagina3).pagina = 3 ∧
    (applyFilterChange (FilterChange.dataInicial "2024-01-01") estadoPagina3).pagina ≠ 1 ∧
    loadEffect estadoPagina3 (applyFilterChange (FilterChange.dataInicial "2024-01-01") estadoPagina3) =
      some { data_inicial := some "2024-01-01", data_final := none, usuario_id := none,
             produto_id := none, pagina := 3, limite := 20, ordenacao := "created_at_desc" } ∧
    (applyFilterChange (FilterChange.dataFinal "2024-02-01") estadoPagina3).pagina = 3 ∧
    (applyFilterChange (FilterChange.ordenacao "created_at_asc") estadoPagina3).pagina = 3 ∧
    (applyFilterChange (FilterChange.produtoSelect (some produtoCoca)) estadoPagina3).pagina = 3 ∧
    (applyFilterChange FilterChange.produtoClear estadoPagina3).pagina = 3 ∧
    (onLimiteChange 50 estadoPagina3).pagina = 1 ∧
    (limparFiltros estadoPagina3).pagina = 1 ∧
    (handleSubmit estadoPagina3).1.pagina = 1 := by
  decide

/-- C5: each optional field of `params` is unset exactly when its filter
field is the empty string and otherwise carries the value of the field;
page, page size and sort order are carried as they are; with the four
filter fields empty all four optional fields are unset. -/
theorem C5_params_omit_empty_fields (s : State) :
    ((params s).data_inicial = none ↔ s.dataInicial = "") ∧
    ((params s).data_inicial = none ∨ (params s).data_inicial = some s.dataInicial) ∧
    ((params s).data_final = none ↔ s.dataFinal = "") ∧
    ((params s).data_final = none ∨ (params s).data_final = some s.dataFinal) ∧
    ((params s).usuario_id = none ↔ s.usuarioId = "") ∧
    ((params s).usuario_id = none ∨ (params s).usuario_id = some s.usuarioId) ∧
    ((params s).produto_id = none ↔ s.produtoId = "") ∧
    ((params s).produto_id = none ∨ (params s).produto_id = some s.produtoId) ∧
    (params s).pagina = s.pagina ∧ (params s).limite = s.limite ∧
    (params s).ordenacao = s.ordenacao ∧
    params { s with dataInicial := "", dataFinal := "", usuarioId := "", produtoId := "" } =
      { data_inicial := none, data_final := none, usuario_id := none, produto_id := none,
        pagina := s.pagina, limite := s.limite, ordenacao := s.ordenacao } := by
  have key : ∀ x : String, (orUndefined x = none ↔ x = "") ∧
      (orUndefined x = none ∨ orUndefined x = some x) := by
    intro x
    unfold orUndefined
    by_cases hx : x = "" <;> simp [hx]
  refine ⟨(key _).1, (key _).2, (key _).1, (key _).2, (key _).1, (key _).2,
    (key _).1, (key _).2, rfl, rfl, rfl, rfl⟩

/-- C6 (fails on the code): a submit on page 3 starts two runs of `load`
that overlap, the call of `handleSubmit` and the call of the effect; when
the second is rejected with `boom` and the first then resolves, the
successful completion leaves the error `boom`, because the error is
cleared only at the start of a run (line 63) and the success branch
(lines 66-67) does not touch it. The rest holds at every settle, whatever
the state then: the loading flag ends false, a resolved call stores the
items of the response (the empty list when the response or its items are
absent) and the truthiness of its `has_next`, a rejected call stores the
message of the thrown value when it has a non-empty one and
`Erro ao carregar` otherwise; and a run that nothing overlaps ends a
success with the empty error. -/
theorem C6_overlapping_load_keeps_error (s : State) (o : Outcome) (r : Resposta) (m : String) :
    ((loadEffect estadoPagina3 (handleSubmit estadoPagina3).1).isSome = true ∧
      (loadSteps (handleSubmit estadoPagina3).1
        [LoadStep.start, LoadStep.settle (Outcome.rejected (some erroBoom)),
         LoadStep.settle (Outcome.resolved (some respostaA))]).error = "boom" ∧
      (loadSteps (handleSubmit estadoPagina3).1
        [LoadStep.start, LoadStep.settle (Outcome.rejected (some erroBoom)),
         LoadStep.settle (Outcome.resolved (some respostaA))]).items = [registroA] ∧
      (loadSteps (handleSubmit estadoPagina3).1
        [LoadStep.start, LoadStep.settle (Outcome.rejected (some erroBoom)),
         LoadStep.settle (Outcome.resolved (some respostaA))]).loading = false) ∧
    (loadSettle s o).loading = false ∧
    (loadSettle s (Outcome.resolved (some r))).items = r.items.getD [] ∧
    (loadSettle s (Outcome.resolved (some { r with items := none }))).items = [] ∧
    (loadSettle s (Outcome.resolved none)).items = [] ∧
    ((loadSettle s (Outcome.resolved none)).hasNext = false ∧
      (loadSettle s (Outcome.resolved (some { r with has_next := JsVal.undefined }))).hasNext = false ∧
      (loadSettle s (Outcome.resolved (some { r with has_next := JsVal.null }))).hasNext = false ∧
      (loadSettle s (Outcome.resolved (some { r with has_next := JsVal.bool false }))).hasNext = false ∧
      (loadSettle s (Outcome.resolved (some { r with has_next := JsVal.bool true }))).hasNext = true ∧
      (loadSettle s (Outcome.resolved (some { r with has_next := JsVal.num 0 }))).hasNext = false ∧
      (loadSettle s (Outcome.resolved (some { r with has_next := JsVal.num 1 }))).hasNext = true ∧
      (loadSettle s (Outcome.resolved (some { r with has_next := JsVal.str "" }))).hasNext = false ∧
      (loadSettle s (Outcome.resolved (some { r with has_next := JsVal.str "false" }))).hasNext = true) ∧
    (loadSettle s (Outcome.resolved (some r))).error = s.error ∧
    (loadSettle (loadBegin s) (Outcome.resolved (some r))).error = "" ∧
    (loadSettle s (Outcome.rejected (some { message := some m }))).error =
      (if m = "" then "Erro ao carregar" else m) ∧
    (loadSettle s (Outcome.rejected (some { message := none }))).error = "Erro ao carregar" ∧
    (loadSettle s (Outcome.rejected none)).error = "Erro ao carregar" := by
  refine ⟨by decide, ?_, rfl, rfl, rfl, ?_, rfl, rfl, rfl, rfl, rfl⟩
  · cases o <;> rfl
  · refine ⟨rfl, rfl, rfl, rfl, rfl, ?_, ?_, rfl, ?_⟩
    · simp [loadSettle, respostaHasNext, JsVal.truthy]
    · simp [loadSettle, respostaHasNext, JsVal.truthy]
    · simp [loadSettle, respostaHasNext, JsVal.truthy]

/-- C7 (counterexample): with the suggestion `Coca (789)` stored, selecting
it leaves the stored suggestion list not empty after the effect, which
sets a timer to search for `Coca (789)`. -/
theorem C7_counterexample :
    (selectAndEffect (some produtoCoca) estadoSugestoes).1.produtoSugestoes = [produtoCoca] ∧
    (selectAndEffect (some produtoCoca) estadoSugestoes).1.produtoSugestoes ≠ [] ∧
    (selectAndEffect (some produtoCoca) estadoSugestoes).2 = some "Coca (789)" := by
  decide

/-- C7 (amended): after `handleProdutoSelect(p)` and the autocomplete
effect it triggers the suggestion list is hidden: `showSugestoes` is
false and nothing is rendered, also once the search set by that effect
has settled, whose result (when still live) replaces the stored list by
its first 10 entries. The effect empties the stored list exactly when it
runs on a product query that is white space only, and then sets no
timer; so a selection whose new text is blank (and differs from the old
text) ends with the empty list, and any other selection that changes the
text sets a timer for the trimmed text. -/
theorem C7_select_hides_suggestions (p : Option Produto) (s : State) (active : Bool)
    (o : ProdutosOutcome) (ps : List Produto) :
    (selectAndEffect p s).1.showSugestoes = false ∧
    sugestoesVisiveis (selectAndEffect p s).1 = false ∧
    sugestoesVisiveis (autocompleteSettle (selectAndEffect p s).1 active o) = false ∧
    (autocompleteSettle (selectAndEffect p s).1 true (.resolved (.lista ps))).produtoSugestoes =
      ps.take 10 ∧
    (autocompleteEffect s).1.produtoSugestoes =
      (if s.produtoQuery.data.all isTrimChar = true then [] else s.produtoSugestoes) ∧
    ((autocompleteEffect s).2 = none ↔ s.produtoQuery.data.all isTrimChar = true) ∧
    (if (produtoTexto p).data.all isTrimChar = true ∧ s.produtoQuery ≠ produtoTexto p then
        (selectAndEffect p s).1.produtoSugestoes = [] ∧ (selectAndEffect p s).2 = none
      else (selectAndEffect p s).2 =
        (if s.produtoQuery = produtoTexto p then none else some (jsTrim (produtoTexto p)))) ∧
    Aparado (produtoTexto p) (jsTrim (produtoTexto p)) ∧
    selectAndEffect (some produtoBranco) estadoSugestoes =
      ({ estadoSugestoes with produtoId := "8", produtoQuery := "  ", showSugestoes := false,
                              produtoSugestoes := [] }, none) ∧
    (selectAndEffect (some produtoEspacos) estadoSugestoes).2 = some "Coca" := by
  have hshow : (selectAndEffect p s).1.showSugestoes = false := by
    unfold selectAndEffect commitAutocomplete autocompleteEffect handleProdutoSelect
    by_cases h1 : s.produtoQuery = produtoTexto p
    · simp [h1]
    · by_cases h2 : jsTrim (produtoTexto p) = "" <;> simp [h1, h2]
  have hsettle : ∀ a x, (autocompleteSettle (selectAndEffect p s).1 a x).showSugestoes = false := by
    intro a x
    cases x with
    | resolved r => cases a <;> cases r <;> simp [autocompleteSettle, hshow]
    | rejected => cases a <;> simp [autocompleteSettle, hshow]
  refine ⟨hshow, ?_, ?_, rfl, ?_, ?_, ?_, jsTrim_aparado _, by decide, by decide⟩
  · simp [sugestoesVisiveis, hshow]
  · simp [sugestoesVisiveis, hsettle]
  · unfold autocompleteEffect
    by_cases hb : s.produtoQuery.data.all isTrimChar = true
    · simp [(jsTrim_eq_empty_iff _).mpr hb, hb]
    · have hj : ¬ jsTrim s.produtoQuery = "" := fun h => hb ((jsTrim_eq_empty_iff _).mp h)
      simp [hj, hb]
  · unfold autocompleteEffect
    by_cases hb : s.produtoQuery.data.all isTrimChar = true
    · simp [(jsTrim_eq_empty_iff _).mpr hb, hb]
    · have hj : ¬ jsTrim s.produtoQuery = "" := fun h => hb ((jsTrim_eq_empty_iff _).mp h)
      simp [hj, hb]
  · unfold selectAndEffect commitAutocomplete autocompleteEffect handleProdutoSelect
    by_cases h1 : s.produtoQuery = produtoTexto p
    · simp [h1]
    · by_cases hb : (produtoTexto p).data.all isTrimChar = true
      · simp [h1, (jsTrim_eq_empty_iff _).mpr hb, hb]
      · have hj : ¬ jsTrim (produtoTexto p) = "" := fun h => hb ((jsTrim_eq_empty_iff _).mp h)
        simp [h1, hj, hb]

/-- C8: for a suggestion with a non-empty id, name and code,
`handleProdutoSelect` stores the id as product filter and the text
`name (code)` as product query; without a code (absent or empty) the
query text is the name alone. -/
theorem C8_select_sets_id_and_text (s : State) (i n c : String)
    (hi : i ≠ "") (hn : n ≠ "") (hc : c ≠ "") :
    (handleProdutoSelect (some { id := some i, nome := some n, codigo := some c }) s).produtoId = i ∧
    (handleProdutoSelect (some { id := some i, nome := some n, codigo := some c }) s).produtoQuery =
      n ++ " (" ++ c ++ ")" ∧
    (handleProdutoSelect (some { id := some i, nome := some n, codigo := none }) s).produtoQuery = n ∧
    (handleProdutoSelect (some { id := some i, nome := some n, codigo := some "" }) s).produtoQuery = n := by
  simp [handleProdutoSelect, produtoTexto, truthy, jsOr, hi, hn, hc, String.append_assoc]

/-- C8 (witness): the suggestion 7, `Coca`, `789`. -/
theorem C8_select_sets_id_and_text_witness :
    (handleProdutoSelect (some { id := some "7", nome := some "Coca", codigo := some "789" })
        estadoSugestoes).produtoId = "7" ∧
    (handleProdutoSelect (some { id := some "7", nome := some "Coca", codigo := some "789" })
        estadoSugestoes).produtoQuery = "Coca" ++ " (" ++ "789" ++ ")" ∧
    (handleProdutoSelect (some { id := some "7", nome := some "Coca", codigo := none })
        estadoSugestoes).produtoQuery = "Coca" ∧
    (handleProdutoSelect (some { id := some "7", nome := some "Coca", codigo := some "" })
        estadoSugestoes).produtoQuery = "Coca" :=
  C8_select_sets_id_and_text estadoSugestoes "7" "Coca" "789" (by decide) (by decide) (by decide)

/-- C9: from a page number of at least 1 the button `Anterior` yields
max(1, p - 1), which is at least 1 and is 1 on page 1; the button
`Próxima` leaves the state as it is when `hasNext` is false and yields
p + 1 exactly when `hasNext` is true. -/
theorem C9_pagination_bounds (s : State) (hp : 1 ≤ s.pagina) :
    (paginaAnterior s).pagina = max 1 (s.pagina - 1) ∧
    1 ≤ (paginaAnterior s).pagina ∧
    (paginaAnterior s).pagina ≤ s.pagina ∧
    (paginaAnterior { s with pagina := 1 }).pagina = 1 ∧
    paginaProxima { s with hasNext := false } = { s with hasNext := false } ∧
    ((paginaProxima s).pagina = s.pagina + 1 ↔ s.hasNext = true) ∧
    ((paginaProxima s).pagina = s.pagina ↔ s.hasNext = false) := by
  refine ⟨rfl, ?_, ?_, ?_, rfl, ?_, ?_⟩
  · simp [paginaAnterior]
  · simp only [paginaAnterior]; omega
  · simp [paginaAnterior]
  · cases h : s.hasNext <;> simp [paginaProxima, h]
  · cases h : s.hasNext <;> simp [paginaProxima, h]

/-- C9 (witness): page 3 with a next page. -/
theorem C9_pagination_bounds_witness :
    (paginaAnterior estadoPagina3).pagina = max 1 (estadoPagina3.pagina - 1) ∧
    1 ≤ (paginaAnterior estadoPagina3).pagina ∧
    (paginaAnterior estadoPagina3).pagina ≤ estadoPagina3.pagina ∧
    (paginaAnterior { estadoPagina3 with pagina := 1 }).pagina = 1 ∧
    paginaProxima { estadoPagina3 with hasNext := false } = { estadoPagina3 with hasNext := false } ∧
    ((paginaProxima estadoPagina3).pagina = estadoPagina3.pagina + 1 ↔ estadoPagina3.hasNext = true) ∧
    ((paginaProxima estadoPagina3).pagina = estadoPagina3.pagina ↔ estadoPagina3.hasNext = false) :=
  C9_pagination_bounds estadoPagina3 (by decide)

/-- Every edit of a list whose instants do not decrease from `t` comes at
`t` or later. -/
theorem temposCrescem_le (rest : List (Nat × String)) :
    ∀ t : Nat, temposCrescem t rest → ∀ e ∈ rest, t ≤ e.1 := by
  induction rest with
  | nil => intro t _ e he; cases he
  | cons a rest ih =>
    intro t h e he
    obtain ⟨ta, xa⟩ := a
    obtain ⟨h1, h2⟩ := h
    rcases List.mem_cons.mp he with rfl | hmem
    · exact h1
    · exact le_trans h1 (ih ta h2 e hmem)

/-- Handling a list of edits handles the first, then the others. -/
theorem editarTodos_cons (d : Debounce) (e : Nat × String) (rest : List (Nat × String)) :
    d.editarTodos (e :: rest) = (d.editar e.1 e.2).editarTodos rest := rfl

/-- Invariant of the debounce machinery: when its state is the one left by
an edit `x0` at `t0` whose timer has not run yet, the calls it goes on to
issue are those of the debounce rule for that edit and the later ones. -/
theorem escoar_editarTodos_pendente (edits : List (Nat × String)) :
    ∀ (d : Debounce) (t0 : Nat) (x0 : String),
      d.query = x0 →
      d.pendente = (if jsTrim x0 = "" then none
                    else some { instante := t0 + 300, q := jsTrim x0 }) →
      temposCrescem t0 edits → textosMudam x0 edits →
      (d.editarTodos edits).escoar = d.chamadas ++ buscasEsperadas ((t0, x0) :: edits) := by
  induction edits with
  | nil =>
    intro d t0 x0 _ hp _ _
    by_cases hq : jsTrim x0 = ""
    · have hb : x0.data.all isTrimChar = true := (jsTrim_eq_empty_iff x0).mp hq
      rw [buscasEsperadas, hb]
      simp [Debounce.editarTodos, Debounce.escoar, buscasEsperadas, hp, hq]
    · have hb : x0.data.all isTrimChar = false :=
        Bool.eq_false_iff.mpr (fun h => hq ((jsTrim_eq_empty_iff x0).mpr h))
      rw [buscasEsperadas, hb]
      simp [Debounce.editarTodos, Debounce.escoar, buscasEsperadas, hp, hq]
  | cons a rest ih =>
    intro d t0 x0 hquery hp ht hx
    obtain ⟨t, x⟩ := a
    obtain ⟨ht1, ht2⟩ := ht
    obtain ⟨hx1, hx2⟩ := hx
    rw [editarTodos_cons]
    by_cases hq : jsTrim x0 = ""
    · -- no timer is pending
      have hb : x0.data.all isTrimChar = true := (jsTrim_eq_empty_iff x0).mp hq
      have hp0 : d.pendente = none := by simp [hp, hq]
      have hstep := ih (d.editar t x) t x
        (by simp [Debounce.editar, Debounce.avancar, hp0, hquery, hx1])
        (by simp [Debounce.editar, Debounce.avancar, hp0, hquery, hx1, debounceMs])
        ht2 hx2
      rw [hstep]
      have hc : (d.editar t x).chamadas = d.chamadas := by
        simp [Debounce.editar, Debounce.avancar, hp0, hquery, hx1]
      rw [hc]
      conv_rhs => rw [buscasEsperadas, hb]
      simp
    · have hb : x0.data.all isTrimChar = false :=
        Bool.eq_false_iff.mpr (fun h => hq ((jsTrim_eq_empty_iff x0).mpr h))
      have hp1 : d.pendente = some { instante := t0 + 300, q := jsTrim x0 } := by simp [hp, hq]
      by_cases hdue : t0 + 300 ≤ t
      · have hstep := ih (d.editar t x) t x
          (by simp [Debounce.editar, Debounce.avancar, hp1, hdue, hquery, hx1])
          (by simp [Debounce.editar, Debounce.avancar, hp1, hdue, hquery, hx1, debounceMs])
          ht2 hx2
        rw [hstep]
        have hc : (d.editar t x).chamadas =
            d.chamadas ++ [{ instante := t0 + 300, q := jsTrim x0 }] := by
          simp [Debounce.editar, Debounce.avancar, hp1, hdue, hquery, hx1]
        rw [hc]
        have hall : rest.all (fun e => decide (t0 + 300 ≤ e.1)) = true := by
          rw [List.all_eq_true]
          intro e he
          exact decide_eq_true (le_trans hdue (temposCrescem_le rest t ht2 e he))
        conv_rhs => rw [buscasEsperadas, hb, List.all_cons, hall]
        simp [hdue]
      · have hstep := ih (d.editar t x) t x
          (by simp [Debounce.editar, Debounce.avancar, hp1, hdue, hquery, hx1])
          (by simp [Debounce.editar, Debounce.avancar, hp1, hdue, hquery, hx1, debounceMs])
          ht2 hx2
        rw [hstep]
        have hc : (d.editar t x).chamadas = d.chamadas := by
          simp [Debounce.editar, Debounce.avancar, hp1, hdue, hquery, hx1]
        rw [hc]
        conv_rhs => rw [buscasEsperadas, hb, List.all_cons]
        simp [hdue]

/-- Every call of the debounce rule comes 300 ms after an edit whose text
is not white space only and carries the trimmed text of that edit. -/
theorem buscasEsperadas_mem (edits : List (Nat × String)) :
    ∀ b ∈ buscasEsperadas edits,
      ∃ e ∈ edits, b.instante = e.1 + 300 ∧ b.q = jsTrim e.2 ∧
        e.2.data.all isTrimChar = false := by
  induction edits with
  | nil => intro b hb; simp [buscasEsperadas] at hb
  | cons a rest ih =>
    intro b hb
    obtain ⟨t, x⟩ := a
    rw [buscasEsperadas, List.mem_append] at hb
    rcases hb with hb | hb
    · by_cases hc : x.data.all isTrimChar = false ∧
          rest.all (fun e => decide (t + 300 ≤ e.1)) = true
      · rw [if_pos hc, List.mem_singleton] at hb
        subst hb
        exact ⟨(t, x), List.mem_cons_self _ _, rfl, rfl, hc.1⟩
      · rw [if_neg hc] at hb
        cases hb
    · obtain ⟨e, he, h1, h2, h3⟩ := ih b hb
      exact ⟨e, List.mem_cons_of_mem _ he, h1, h2, h3⟩

/-- C10: for timed edits of the product field after mount, at instants
that do not decrease and each changing the text, the search calls issued
are exactly those of the debounce rule: one per edit whose text is not
white space only and that no later edit follows within 300 ms; each call
issued comes 300 ms after its edit and carries the text of that edit
without its leading and trailing white space, which is not empty. -/
theorem C10_debounce (edits : List (Nat × String))
    (ht : temposCrescem 0 edits) (hx : textosMudam "" edits) :
    buscasEmitidas edits = buscasEsperadas edits ∧
    (∀ b ∈ buscasEmitidas edits,
      ∃ e ∈ edits, b.instante = e.1 + 300 ∧ Aparado e.2 b.q ∧ b.q ≠ "") := by
  have h := escoar_editarTodos_pendente edits Debounce.inicial 0 "" rfl (by decide) ht hx
  have h0 : buscasEsperadas ((0, "") :: edits) = buscasEsperadas edits := by
    conv_lhs => rw [buscasEsperadas]
    have : "".data.all isTrimChar = true := by decide
    simp [this]
  rw [h0] at h
  have heq : buscasEmitidas edits = buscasEsperadas edits := by
    simpa [buscasEmitidas, Debounce.inicial] using h
  refine ⟨heq, ?_⟩
  intro b hb
  rw [heq] at hb
  obtain ⟨e, he, h1, h2, h3⟩ := buscasEsperadas_mem edits b hb
  refine ⟨e, he, h1, ?_, ?_⟩
  · rw [h2]; exact jsTrim_aparado e.2
  · rw [h2]
    intro hempty
    rw [(jsTrim_eq_empty_iff e.2).mp hempty] at h3
    cases h3

/-- C10 (witness): `coca` then `coca-c` 100 ms later issue the single call
`coca-c`, also when the texts carry white space around them, which the
call does not carry; `coca` then `coca-c` 300 ms later issue two calls;
edits to white space only issue no call. -/
theorem C10_debounce_witness :
    (temposCrescem 0 [(0, " coca"), (100, "\tcoca-c ")] ∧
      textosMudam "" [(0, " coca"), (100, "\tcoca-c ")] ∧
      buscasEmitidas [(0, " coca"), (100, "\tcoca-c ")] = [{ instante := 400, q := "coca-c" }]) ∧
    (temposCrescem 0 [(0, "coca"), (300, "coca-c")] ∧
      textosMudam "" [(0, "coca"), (300, "coca-c")] ∧
      buscasEmitidas [(0, "coca"), (300, "coca-c")] =
        [{ instante := 300, q := "coca" }, { instante := 600, q := "coca-c" }]) ∧
    (temposCrescem 0 [(0, " \t"), (50, "coca "), (400, "  ")] ∧
      textosMudam "" [(0, " \t"), (50, "coca "), (400, "  ")] ∧
      buscasEmitidas [(0, " \t"), (50, "coca "), (400, "  ")] =
        [{ instante := 350, q := "coca" }]) ∧
    (∀ b ∈ buscasEmitidas [(0, " coca"), (100, "\tcoca-c ")],
      ∃ e ∈ [(0, " coca"), (100, "\tcoca-c ")],
        b.instante = e.1 + 300 ∧ Aparado e.2 b.q ∧ b.q ≠ "") :=
  ⟨⟨⟨by decide, by decide, trivial⟩, ⟨by decide, by decide, trivial⟩,
      (C10_debounce [(0, " coca"), (100, "\tcoca-c ")]
        ⟨by decide, by decide, trivial⟩ ⟨by decide, by decide, trivial⟩).1.trans (by decide)⟩,
    ⟨⟨by decide, by decide, trivial⟩, ⟨by decide, by decide, trivial⟩,
      (C10_debounce [(0, "coca"), (300, "coca-c")]
        ⟨by decide, by decide, trivial⟩ ⟨by decide, by decide, trivial⟩).1.trans (by decide)⟩,
    ⟨⟨by decide, by decide, by decide, trivial⟩, ⟨by decide, by decide, by decide, trivial⟩,
      (C10_debounce [(0, " \t"), (50, "coca "), (400, "  ")]
        ⟨by decide, by decide, by decide, trivial⟩
        ⟨by decide, by decide, by decide, trivial⟩).1.trans (by decide)⟩,
    (C10_debounce [(0, " coca"), (100, "\tcoca-c ")]
      ⟨by decide, by decide, trivial⟩ ⟨by decide, by decide, trivial⟩).2⟩

/-- C11: when a product search settles while the effect run that asked
for it is still live, a returned list is stored cut to its first 10
entries in their order (the whole list when it has at most 10), so at
most 10 are stored; a value that is not a list, or a failed search,
stores the empty list; in no case is the error message touched. A result
that settles after the cleanup is dropped. -/
theorem C11_suggestions_first_ten (s : State) (ps : List Produto) (v : JsVal)
    (o : ProdutosOutcome) :
    (autocompleteSettle s true (.resolved (.lista ps))).produtoSugestoes = ps.take 10 ∧
    (autocompleteSettle s true (.resolved (.lista ps))).produtoSugestoes <+: ps ∧
    (autocompleteSettle s true (.resolved (.lista ps))).produtoSugestoes.length = min 10 ps.length ∧
    (autocompleteSettle s true (.resolved (.lista ps))).produtoSugestoes.length ≤ 10 ∧
    (if ps.length ≤ 10 then
        (autocompleteSettle s true (.resolved (.lista ps))).produtoSugestoes = ps
      else (autocompleteSettle s true (.resolved (.lista ps))).produtoSugestoes.length = 10) ∧
    (autocompleteSettle s true (.resolved (.outro v))).produtoSugestoes = [] ∧
    (autocompleteSettle s true .rejected).produtoSugestoes = [] ∧
    (autocompleteSettle s true o).error = s.error ∧
    autocompleteSettle s false o = s := by
  have htake : (autocompleteSettle s true (.resolved (.lista ps))).produtoSugestoes = ps.take 10 :=
    rfl
  rw [htake]
  refine ⟨rfl, List.take_prefix 10 ps, List.length_take 10 ps, ?_, ?_, rfl, rfl, ?_, ?_⟩
  · rw [List.length_take]; exact min_le_left 10 ps.length
  · by_cases hlen : ps.length ≤ 10
    · rw [if_pos hlen]; exact List.take_of_length_le hlen
    · rw [if_neg hlen, List.length_take]; omega
  · cases o with
    | resolved r => cases r <;> rfl
    | rejected => rfl
  · cases o <;> rfl

/-- The two replacements of the print note done one after the other are
one pass over the characters. -/
theorem pdfNote_data (obs : Option String) :
    (pdfNote obs).data = (jsOr obs "").data.flatMap (fun c =>
      if c = '<' then ['&', 'l', 't', ';'] else if c = '>' then ['&', 'g', 't', ';'] else [c]) := by
  unfold pdfNote replaceAll
  simp only [List.flatMap_assoc]
  congr 1
  funext c
  by_cases h1 : c = '<'
  · subst h1; decide
  · by_cases h2 : c = '>'
    · subst h2; decide
    · simp [h1, h2]

/-- C12: the note cell of a print row is the note with every `<` turned
into `&lt;` and every `>` into `&gt;`, every other character kept in its
place; the escaped text holds no `<` and no `>`, and it is the content of
the last cell of the row. -/
theorem C12_note_angle_brackets_escaped (h : Host) (r : Registro) :
    (pdfNote r.observacao).data = (jsOr r.observacao "").data.flatMap (fun c =>
      if c = '<' then ['&', 'l', 't', ';'] else if c = '>' then ['&', 'g', 't', ';'] else [c]) ∧
    '<' ∉ (pdfNote r.observacao).data ∧ '>' ∉ (pdfNote r.observacao).data ∧
    (∃ pre : String, pdfRow h r =
      pre ++ "<td>" ++ pdfNote r.observacao ++ "</td>\n          </tr>\n        ") := by
  refine ⟨pdfNote_data r.observacao, ?_, ?_, ?_⟩
  · rw [pdfNote_data]
    intro hmem
    obtain ⟨a, _, ha⟩ := List.mem_flatMap.mp hmem
    by_cases h1 : a = '<'
    · subst h1; revert ha; decide
    · by_cases h2 : a = '>'
      · subst h2; revert ha; decide
      · simp [h1, h2] at ha
        exact h1 ha.symm
  · rw [pdfNote_data]
    intro hmem
    obtain ⟨a, _, ha⟩ := List.mem_flatMap.mp hmem
    by_cases h1 : a = '<'
    · subst h1; revert ha; decide
    · by_cases h2 : a = '>'
      · subst h2; revert ha; decide
      · simp [h1, h2] at ha
        exact h2 ha.symm
  · refine ⟨"\n          <tr>\n            <td>" ++ dateCell h r.created_at ++
      "</td>\n            <td>" ++ jsOr r.produto_nome "" ++
      "</td>\n            <td>" ++ jsOr r.codigo "" ++
      "</td>\n            <td class=\"num\">" ++ h.numberToLocaleString (numOrZero r.quantidade) ++
      "</td>\n            <td class=\"num\">" ++ h.currencyToLocaleString (numOrZero r.custo_unitario) ++
      "</td>\n            <td class=\"num\">" ++ h.currencyToLocaleString (numOrZero r.total_custo) ++
      "</td>\n            <td>" ++ jsOr r.usuario_nome "" ++
      "</td>\n            ", ?_⟩
    simp only [pdfRow, String.append_assoc]
    rfl

/-- The text `x || ''` of a field that is present is the field itself. -/
theorem jsOr_some_empty (n : String) : jsOr (some n) "" = n := by
  unfold jsOr
  by_cases hn : n = ""
  · simp [hn]
  · simp [hn]

/-- C14: in a print row the product name, the code and the user name of
the record stand between their cell tags exactly as they are, whatever
characters they hold, while the note stands there escaped; for a record
whose name is `<b>Arroz</b>`, code `<i>` and user `a>b` the row holds
these three texts unchanged and the note `<b>x</b>` with its angle
brackets replaced. -/
theorem C14_text_cells_verbatim (h : Host) (r : Registro) (n c u : String) :
    pdfRow h { r with produto_nome := some n, codigo := some c, usuario_nome := some u } =
      "\n          <tr>\n            <td>" ++ dateCell h r.created_at ++
      "</td>\n            <td>" ++ n ++
      "</td>\n            <td>" ++ c ++
      "</td>\n            <td class=\"num\">" ++ h.numberToLocaleString (numOrZero r.quantidade) ++
      "</td>\n            <td class=\"num\">" ++ h.currencyToLocaleString (numOrZero r.custo_unitario) ++
      "</td>\n            <td class=\"num\">" ++ h.currencyToLocaleString (numOrZero r.total_custo) ++
      "</td>\n            <td>" ++ u ++
      "</td>\n            <td>" ++ pdfNote r.observacao ++
      "</td>\n          </tr>\n        " ∧
    pdfRow h registroMarcado =
      "\n          <tr>\n            <td>" ++
      "</td>\n            <td>" ++ "<b>Arroz</b>" ++
      "</td>\n            <td>" ++ "<i>" ++
      "</td>\n            <td class=\"num\">" ++ h.numberToLocaleString 0 ++
      "</td>\n            <td class=\"num\">" ++ h.currencyToLocaleString 0 ++
      "</td>\n            <td class=\"num\">" ++ h.currencyToLocaleString 0 ++
      "</td>\n            <td>" ++ "a>b" ++
      "</td>\n            <td>" ++ "&lt;b&gt;x&lt;/b&gt;" ++
      "</td>\n          </tr>\n        " := by
  constructor
  · simp only [pdfRow, jsOr_some_empty]
  · have hnote : pdfNote registroMarcado.observacao = "&lt;b&gt;x&lt;/b&gt;" := by decide
    simp only [pdfRow, hnote]
    rfl

/-- The accumulator loop of `String.intercalate` appends each remaining
string behind the separator. -/
theorem intercalate_go_eq (sep : String) (l : List String) :
    ∀ acc : String, String.intercalate.go acc sep l = acc ++ String.join (l.map (fun a => sep ++ a)) := by
  induction l with
  | nil => intro acc; simp [String.intercalate.go, String.join]
  | cons a as ih =>
    intro acc
    rw [String.intercalate.go, ih]
    apply String.ext
    simp [String.data_join, List.append_assoc]

/-- The characters of a joined list: the first string, then each other
string behind the separator. -/
theorem intercalate_cons_data (sep a : String) (l : List String) :
    (String.intercalate sep (a :: l)).data = a.data ++ l.flatMap (fun x => sep.data ++ x.data) := by
  rw [String.intercalate, intercalate_go_eq]
  simp [String.data_join, List.flatMap, List.map_map, Function.comp_def]

/-- Reading a run of characters is reading its first part, then the rest. -/
theorem correr_append (st : CsvLeitor) (as bs : List Char) :
    st.correr (as ++ bs) = (st.correr as).correr bs := by
  simp [CsvLeitor.correr, List.foldl_append]

/-- Reading a run of characters starts with its first character. -/
theorem correr_cons (st : CsvLeitor) (c : Char) (cs : List Char) :
    st.correr (c :: cs) = (st.ler c).correr cs := rfl

/-- Outside quotes, characters other than quote, comma and newline are
added to the field being read. -/
theorem correr_campo (cs : List Char) :
    ∀ st : CsvLeitor, st.modo = .campo →
      (∀ c ∈ cs, c ≠ '\"' ∧ c ≠ ',' ∧ c ≠ '\n') →
      st.correr cs = { st with atual := st.atual ++ cs } := by
  induction cs with
  | nil => intro st _ _; simp [CsvLeitor.correr]
  | cons c cs ih =>
    intro st hm hcs
    obtain ⟨h1, h2, h3⟩ := hcs c (List.mem_cons_self c cs)
    rw [correr_cons]
    have hstep : st.ler c = { st with atual := st.atual ++ [c] } := by
      simp [CsvLeitor.ler, hm, h1, h2, h3]
    rw [hstep, ih { st with atual := st.atual ++ [c] } hm
      (fun x hx => hcs x (List.mem_cons_of_mem c hx))]
    simp

/-- Inside quotes, a text with its quotes doubled is read as that text. -/
theorem correr_aspas (cs : List Char) :
    ∀ st : CsvLeitor, st.modo = .aspas →
      st.correr (cs.flatMap (fun x => if x = '\"' then ['\"', '\"'] else [x])) =
        { st with atual := st.atual ++ cs } := by
  induction cs with
  | nil => intro st _; simp [CsvLeitor.correr]
  | cons c cs ih =>
    intro st hm
    rw [List.flatMap_cons, correr_append]
    by_cases hc : c = '\"'
    · subst hc
      have hstep : st.correr ['\"', '\"'] = { st with atual := st.atual ++ ['\"'] } := by
        simp [CsvLeitor.correr, CsvLeitor.ler, hm]
      simp only [if_true]
      rw [hstep, ih { st with atual := st.atual ++ ['\"'] } hm]
      simp
    · have hstep : st.correr [c] = { st with atual := st.atual ++ [c] } := by
        simp [CsvLeitor.correr, CsvLeitor.ler, hm, hc]
      simp only [if_neg hc]
      rw [hstep, ih { st with atual := st.atual ++ [c] } hm]
      simp


/-- Doubling the quotes of a text without quotes leaves it as it is. -/
theorem flatMap_sem_aspas (l : List Char) (hl : ∀ x ∈ l, x ≠ '\"') :
    l.flatMap (fun x => if x = '\"' then ['\"', '\"'] else [x]) = l := by
  induction l with
  | nil => rfl
  | cons a l ih =>
    rw [List.flatMap_cons, ih (fun x hx => hl x (List.mem_cons_of_mem a hx))]
    simp [hl a (List.mem_cons_self a l)]

/-- The characters of a text after its quotes are doubled. -/
theorem replaceAll_aspas_data (c : String) :
    (replaceAll '\"' "\"\"" c).data =
      c.data.flatMap (fun x => if x = '\"' then ['\"', '\"'] else [x]) := rfl

/-- A cell that needs no quoting holds no quote, comma or newline. -/
theorem needsQuote_false (c : String) (hq : needsQuote c = false) :
    ∀ x ∈ c.data, x ≠ '\"' ∧ x ≠ ',' ∧ x ≠ '\n' := by
  intro x hx
  unfold needsQuote at hq
  have h := (List.any_eq_false.mp hq) x hx
  simp only [Bool.or_eq_true, decide_eq_true_eq, not_or] at h
  exact ⟨h.1.1, h.1.2, h.2⟩

/-- A cell that needs no quoting is written as it is. -/
theorem csvCell_sem_aspas (c : String) (hq : needsQuote c = false) : csvCell c = c := by
  apply String.ext
  simp only [csvCell, hq, Bool.false_eq_true, if_false, replaceAll_aspas_data]
  exact flatMap_sem_aspas c.data (fun x hx => (needsQuote_false c hq x hx).1)

/-- From the start of a field, reading a written cell leaves the reader
outside quotes with the cell as the field being read. -/
theorem correr_csvCell (c : String) (st : CsvLeitor) (hm : st.modo = .campo)
    (ha : st.atual = []) :
    ∃ m : CsvModo, m ≠ CsvModo.aspas ∧
      st.correr (csvCell c).data = { st with modo := m, atual := c.data } := by
  by_cases hq : needsQuote c = true
  · refine ⟨.aspasFim, by decide, ?_⟩
    have hdata : (csvCell c).data =
        '\"' :: (c.data.flatMap (fun x => if x = '\"' then ['\"', '\"'] else [x]) ++ ['\"']) := by
      simp only [csvCell, hq, if_true, String.data_append, replaceAll_aspas_data]
      rfl
    rw [hdata, correr_cons, correr_append]
    have h1 : st.ler '\"' = { st with modo := .aspas } := by
      simp [CsvLeitor.ler, hm]
    rw [h1, correr_aspas c.data { st with modo := .aspas } rfl]
    simp [CsvLeitor.correr, CsvLeitor.ler, ha]
  · have hq2 : needsQuote c = false := by simpa using hq
    refine ⟨.campo, by decide, ?_⟩
    rw [csvCell_sem_aspas c hq2, correr_campo c.data st hm (needsQuote_false c hq2)]
    simp [ha, hm]

/-- Outside quotes a comma ends the field. -/
theorem ler_virgula (st : CsvLeitor) (hm : st.modo ≠ .aspas) : st.ler ',' = st.fimCampo := by
  cases h : st.modo with
  | campo => simp [CsvLeitor.ler, h]
  | aspas => exact absurd h hm
  | aspasFim => simp [CsvLeitor.ler, h]

/-- Outside quotes a newline ends the record. -/
theorem ler_novaLinha (st : CsvLeitor) (hm : st.modo ≠ .aspas) : st.ler '\n' = st.fimRegistro := by
  cases h : st.modo with
  | campo => simp [CsvLeitor.ler, h]
  | aspas => exact absurd h hm
  | aspasFim => simp [CsvLeitor.ler, h]

/-- Reading the line written for a row of cells leaves the reader with
those cells as the fields of the record being read. -/
theorem correr_linha (cells : List String) :
    ∀ (c0 : String) (st : CsvLeitor), st.modo = .campo → st.atual = [] →
      ∃ st' : CsvLeitor,
        st.correr ((csvCell c0).data ++ cells.flatMap (fun c => ",".data ++ (csvCell c).data)) = st' ∧
        st'.modo ≠ .aspas ∧
        st'.campos ++ [String.mk st'.atual] = st.campos ++ (c0 :: cells) ∧
        st'.registros = st.registros := by
  induction cells with
  | nil =>
    intro c0 st hm ha
    obtain ⟨m, hm', hrun⟩ := correr_csvCell c0 st hm ha
    refine ⟨_, rfl, ?_, ?_, ?_⟩
    · simp [hrun, hm']
    · simp [hrun]
    · simp [hrun]
  | cons c1 cells ih =>
    intro c0 st hm ha
    obtain ⟨m, hm', hrun⟩ := correr_csvCell c0 st hm ha
    rw [List.flatMap_cons, correr_append, hrun]
    have hsep : ",".data = [','] := rfl
    rw [hsep, List.append_assoc, List.singleton_append, correr_cons, ler_virgula _ hm']
    obtain ⟨st', hst', hmode, hcampos, hregs⟩ :=
      ih c1 (CsvLeitor.fimCampo { st with modo := m, atual := c0.data }) rfl rfl
    refine ⟨st', hst', hmode, ?_, ?_⟩
    · rw [hcampos]; simp [CsvLeitor.fimCampo]
    · rw [hregs]; rfl

/-- The characters of the line written for a row of cells. -/
theorem linha_data (c0 : String) (cells : List String) :
    (",".intercalate ((c0 :: cells).map csvCell)).data =
      (csvCell c0).data ++ cells.flatMap (fun c => ",".data ++ (csvCell c).data) := by
  rw [List.map_cons, intercalate_cons_data]
  simp [List.flatMap_map]

/-- Reading the lines written for rows of cells, each row with at least
one cell, adds those rows to the records read. -/
theorem correr_linhas (rows : List (List String)) :
    ∀ (c0 : String) (cells : List String) (st : CsvLeitor),
      st.modo = .campo → st.atual = [] → st.campos = [] →
      (∀ r ∈ rows, r ≠ []) →
      ((st.correr ((",".intercalate ((c0 :: cells).map csvCell)).data ++
          rows.flatMap (fun r => "\n".data ++ (",".intercalate (r.map csvCell)).data))).fimRegistro).registros =
        st.registros ++ ((c0 :: cells) :: rows) := by
  induction rows with
  | nil =>
    intro c0 cells st hm ha hc _
    rw [List.flatMap_nil, List.append_nil, linha_data]
    obtain ⟨st', hst', _, hcampos, hregs⟩ := correr_linha cells c0 st hm ha
    rw [hst']
    simp [CsvLeitor.fimRegistro, hcampos, hregs, hc]
  | cons r rows ih =>
    intro c0 cells st hm ha hc hrows
    obtain ⟨c1, cells1, rfl⟩ : ∃ c1 cells1, r = c1 :: cells1 := by
      cases r with
      | nil => exact absurd rfl (hrows [] (List.mem_cons_self _ _))
      | cons a l => exact ⟨a, l, rfl⟩
    rw [List.flatMap_cons, correr_append, linha_data c0 cells]
    obtain ⟨st', hst', hmode, hcampos, hregs⟩ := correr_linha cells c0 st hm ha
    rw [hst']
    have hsep : "\n".data = ['\n'] := rfl
    rw [hsep, List.append_assoc, List.singleton_append, correr_cons, ler_novaLinha _ hmode]
    have := ih c1 cells1 st'.fimRegistro rfl rfl rfl
      (fun x hx => hrows x (List.mem_cons_of_mem _ hx))
    rw [this]
    simp [CsvLeitor.fimRegistro, hcampos, hregs, hc]

/-- The reader gives back the rows of cells from the text written for
them. -/
theorem csvDecode_linhas (c0 : String) (cells : List String) (rows : List (List String))
    (hrows : ∀ r ∈ rows, r ≠ []) :
    csvDecode ("\n".intercalate (((c0 :: cells) :: rows).map
        (fun r => ",".intercalate (r.map csvCell)))) = (c0 :: cells) :: rows := by
  unfold csvDecode
  rw [List.map_cons, intercalate_cons_data, List.flatMap_map]
  have := correr_linhas rows c0 cells CsvLeitor.inicial rfl rfl rfl hrows
  simpa [CsvLeitor.inicial] using this


/-- C13: read back as comma-separated text with newline-separated records
and doubled quotes, the text of `exportCSV` gives the header record
followed by one record per loaded item in order, each of 8 fields; every
field reads back as the string that was put in the row for it (the date,
name, code, the three numbers and the user as exported; the note as
prepared at line 125), and a cell without comma, quote or newline is
written as it is. -/
theorem C13_csv_reads_back (h : Host) (items : List Registro) :
    csvDecode (exportCSV h items) =
      csvHeaders :: items.map (fun r =>
        [ dateCell h r.created_at, jsOr r.produto_nome "", jsOr r.codigo "",
          numCell h r.quantidade, numCell h r.custo_unitario, numCell h r.total_custo,
          jsOr r.usuario_nome "", csvNote r.observacao ]) ∧
    (csvDecode (exportCSV h items)).length = items.length + 1 ∧
    (csvDecode (exportCSV h items)).map List.length = List.replicate (items.length + 1) 8 ∧
    (∀ c : String, csvCell c =
      if needsQuote c then "\"" ++ replaceAll '\"' "\"\"" c ++ "\"" else c) := by
  have hh : csvHeaders.map csvCell = csvHeaders := by decide
  have hexp : exportCSV h items = "\n".intercalate ((csvHeaders :: items.map (csvRow h)).map
      (fun r => ",".intercalate (r.map csvCell))) := by
    unfold exportCSV
    rw [List.map_cons, hh, List.map_map]
    rfl
  have hrows : ∀ r ∈ items.map (csvRow h), r ≠ [] := by
    intro r hr
    obtain ⟨x, _, rfl⟩ := List.mem_map.mp hr
    simp [csvRow]
  have hdec : csvDecode (exportCSV h items) = csvHeaders :: items.map (csvRow h) := by
    rw [hexp]
    exact csvDecode_linhas "Data"
      ["Produto", "Código", "Quantidade", "Custo Unitário", "Total Custo", "Usuário", "Observação"]
      (items.map (csvRow h)) hrows
  refine ⟨hdec, ?_, ?_, ?_⟩
  · rw [hdec]; simp
  · have hlen : ∀ l : List Registro,
        (l.map (csvRow h)).map List.length = List.replicate l.length 8 := by
      intro l
      induction l with
      | nil => rfl
      | cons a l ih =>
        rw [List.map_cons, List.map_cons, ih, List.length_cons, List.replicate_succ]
        rfl
    rw [hdec, List.map_cons, hlen, List.replicate_succ]
    rfl
  · intro c
    by_cases hq : needsQuote c = true
    · simp [csvCell, hq]
    · have hq2 : needsQuote c = false := by simpa using hq
      rw [csvCell_sem_aspas c hq2]
      simp [hq2]

end Abastecimentos
